import Mathlib

/-!
Verification of the Kahani free-trial messaging/ingestion repository.

The development shallowly embeds, in Lean 4:
  * the gateway helpers of `src/client/src/tracks.ts`
    (`normalizePhoneNumber`, `validateE164`, `retryWithBackoff`,
    `sendTextMessageWithRetry`, `downloadVoiceNoteMedia`,
    `downloadMediaFile`), and
  * the persisted schema of the SQL migration (tables `free_trials`
    and `voice_notes`, their column defaults and the unique index
    `voice_notes_trial_question_idx`).

JavaScript conventions that matter are modelled explicitly: a string is
falsy exactly when it is empty, `a || b` on optional values falls through
on falsy `a`, thrown errors are `Except.error`, and `Promise`-returning
functions become pure functions of their (explicitly passed) effects.
-/

namespace Kahani

/-! ## Phone number helpers (`tracks.ts` lines 802-819)

`normalizePhoneNumber` strips non-digits with `phone.replace(/\D/g, "")`,
then keeps a 12-digit `91…` string, prefixes `91` to a 10-digit string,
and otherwise returns the stripped digits unchanged.  We model strings
through their character lists. -/

/-- `phone.replace(/\D/g, "")`: drop every non-digit character. -/
def stripNonDigits (s : String) : String :=
  ⟨s.data.filter Char.isDigit⟩

/-- Core of `normalizePhoneNumber`, acting on the already-stripped digit
list.  `cleaned.startsWith("91")` is `take 2 = ['9','1']`. -/
def normalizeDigits (c : List Char) : List Char :=
  if c.take 2 = ['9', '1'] ∧ c.length = 12 then c
  else if c.length = 10 then '9' :: '1' :: c
  else c

/-- `normalizePhoneNumber` from `tracks.ts`. -/
def normalizePhoneNumber (s : String) : String :=
  ⟨normalizeDigits (s.data.filter Char.isDigit)⟩

/-- `validateE164` from `tracks.ts`: the regex `/^\d{10,15}$/`. -/
def validateE164 (s : String) : Bool :=
  decide (10 ≤ s.data.length) && decide (s.data.length ≤ 15)
    && s.data.all Char.isDigit

theorem normalizeDigits_all_digits (c : List Char)
    (h : ∀ x ∈ c, x.isDigit) : ∀ x ∈ normalizeDigits c, x.isDigit := by
  unfold normalizeDigits
  split
  · exact h
  · split
    · intro x hx
      simp only [List.mem_cons] at hx
      rcases hx with rfl | rfl | hx
      · decide
      · decide
      · exact h x hx
    · exact h

theorem filter_normalizeDigits (c : List Char)
    (h : ∀ x ∈ c, x.isDigit) :
    (normalizeDigits c).filter Char.isDigit = normalizeDigits c :=
  List.filter_eq_self.mpr (by
    intro a ha
    exact normalizeDigits_all_digits c h a ha)

theorem normalizeDigits_idem (c : List Char) :
    normalizeDigits (normalizeDigits c) = normalizeDigits c := by
  by_cases h1 : c.take 2 = ['9', '1'] ∧ c.length = 12
  · have hc : normalizeDigits c = c := by rw [normalizeDigits, if_pos h1]
    rw [hc]; exact hc
  · by_cases h2 : c.length = 10
    · have hc : normalizeDigits c = '9' :: '1' :: c := by
        rw [normalizeDigits, if_neg h1, if_pos h2]
      rw [hc, normalizeDigits, if_pos ⟨rfl, by simp [h2]⟩]
    · have hc : normalizeDigits c = c := by
        rw [normalizeDigits, if_neg h1, if_neg h2]
      rw [hc]; exact hc

/-- **C6.** `normalizePhoneNumber` returns a digits-only string: it
strips every non-digit character; if exactly 10 digits remain it
prefixes the country code `"91"`; if exactly 12 digits remain and they
start with `"91"` it returns them unchanged; otherwise it returns the
stripped digits as-is. -/
theorem normalizePhoneNumber_cases (s : String) :
    (∀ ch ∈ (normalizePhoneNumber s).data, ch.isDigit) ∧
    ((stripNonDigits s).data.length = 10 →
      normalizePhoneNumber s = "91" ++ stripNonDigits s) ∧
    ((stripNonDigits s).data.length = 12 →
      (stripNonDigits s).data.take 2 = ['9', '1'] →
      normalizePhoneNumber s = stripNonDigits s) ∧
    ((stripNonDigits s).data.length ≠ 10 →
      ¬((stripNonDigits s).data.length = 12 ∧
        (stripNonDigits s).data.take 2 = ['9', '1']) →
      normalizePhoneNumber s = stripNonDigits s) := by
  have hd : ∀ x ∈ s.data.filter Char.isDigit, x.isDigit :=
    fun x hx => (List.mem_filter.mp hx).2
  refine ⟨normalizeDigits_all_digits _ hd, ?_, ?_, ?_⟩
  · intro h10
    apply String.ext
    show normalizeDigits (s.data.filter Char.isDigit)
      = ("91" ++ stripNonDigits s).data
    rw [normalizeDigits, if_neg (by simp [stripNonDigits] at h10 ⊢; omega),
      if_pos (by simpa [stripNonDigits] using h10)]
    simp [stripNonDigits, String.data_append]
  · intro h12 h91
    apply String.ext
    show normalizeDigits (s.data.filter Char.isDigit)
      = (stripNonDigits s).data
    rw [normalizeDigits,
      if_pos ⟨by simpa [stripNonDigits] using h91,
        by simpa [stripNonDigits] using h12⟩]
    rfl
  · intro h10 h12
    apply String.ext
    show normalizeDigits (s.data.filter Char.isDigit)
      = (stripNonDigits s).data
    rw [normalizeDigits,
      if_neg (by
        intro hc
        exact h12 ⟨by simpa [stripNonDigits] using hc.2,
          by simpa [stripNonDigits] using hc.1⟩),
      if_neg (by simpa [stripNonDigits] using h10)]
    rfl

theorem normalizePhoneNumber_cases_witness :
    normalizePhoneNumber "+91 98765-43210" = stripNonDigits "+91 98765-43210" :=
  (normalizePhoneNumber_cases "+91 98765-43210").2.2.1 (by decide) (by decide)

/-- **C9.** `normalizePhoneNumber` is idempotent: applying it twice
gives the same result as applying it once. -/
theorem normalizePhoneNumber_idempotent (s : String) :
    normalizePhoneNumber (normalizePhoneNumber s) = normalizePhoneNumber s := by
  have hd : ∀ x ∈ s.data.filter Char.isDigit, x.isDigit :=
    fun x hx => (List.mem_filter.mp hx).2
  apply String.ext
  show normalizeDigits
      ((normalizeDigits (s.data.filter Char.isDigit)).filter Char.isDigit)
    = normalizeDigits (s.data.filter Char.isDigit)
  rw [filter_normalizeDigits _ hd, normalizeDigits_idem]

/-! ## Errors and `retryWithBackoff` (`tracks.ts` lines 825-861)

A thrown Twilio/transport error carries optional `status` and `code`
fields.  The source computes `const status = error.status || error.code`
(JavaScript `||`, so a present-but-zero `status` falls through) and deems
the error retryable when `status === 429 || error.code === 20003 ||
(status >= 500 && status < 600)`; comparisons against `undefined` are
false. -/

structure TwilioError where
  message : String := ""
  status : Option Int := none
  code : Option Int := none
deriving DecidableEq, Repr

/-- JavaScript `a || b` on optional numbers: `undefined` and `0` are
falsy. -/
def jsOrNum (a b : Option Int) : Option Int :=
  match a with
  | some s => if s = 0 then b else some s
  | none => b

/-- `const status = error.status || error.code;` -/
def effStatus (e : TwilioError) : Option Int :=
  jsOrNum e.status e.code

/-- The retry guard of `retryWithBackoff`:
`status === 429 || error.code === 20003 || (status >= 500 && status < 600)`. -/
def isTransient (e : TwilioError) : Bool :=
  decide (effStatus e = some 429) || decide (e.code = some 20003) ||
    (match effStatus e with
     | some s => decide (500 ≤ s) && decide (s < 600)
     | none => false)

/-- Observable outcome of one run of `retryWithBackoff`: the value
returned or error finally thrown, the `sleep` delays performed (in
order), and how many times `fn` was invoked. -/
structure RetryRun (α : Type) where
  result : Except TwilioError α
  delays : List Nat
  attempts : Nat
deriving Repr

/-- The loop body of `retryWithBackoff`.  `fn k` is the outcome of the
`k`-th invocation of the operation; `fuel = maxRetries - attempt`
counts the retries still allowed, so the source's `attempt < maxRetries`
is `fuel ≠ 0`.  A transient failure with fuel left sleeps
`initialDelayMs * 2 ^ attempt` and continues; any other failure is
rethrown at once. -/
def retryAux {α : Type} (fn : Nat → Except TwilioError α)
    (initialDelayMs : Nat) : Nat → Nat → RetryRun α
  | attempt, fuel =>
    match fn attempt with
    | .ok v => ⟨.ok v, [], 1⟩
    | .error e =>
      if isTransient e then
        match fuel with
        | 0 => ⟨.error e, [], 1⟩
        | fuel' + 1 =>
          let rest := retryAux fn initialDelayMs (attempt + 1) fuel'
          ⟨rest.result, initialDelayMs * 2 ^ attempt :: rest.delays,
            rest.attempts + 1⟩
      else ⟨.error e, [], 1⟩

/-- `retryWithBackoff` from `tracks.ts` (defaults `maxRetries = 3`,
`initialDelayMs = 1000`). -/
def retryWithBackoff {α : Type} (fn : Nat → Except TwilioError α)
    (maxRetries : Nat := 3) (initialDelayMs : Nat := 1000) : RetryRun α :=
  retryAux fn initialDelayMs 0 maxRetries

theorem retryAux_trace {α : Type} (fn : Nat → Except TwilioError α)
    (d : Nat) : ∀ fuel attempt,
    (retryAux fn d attempt fuel).delays.length ≤ fuel ∧
    (retryAux fn d attempt fuel).attempts
      = (retryAux fn d attempt fuel).delays.length + 1 ∧
    ∀ i, i < (retryAux fn d attempt fuel).delays.length →
      (retryAux fn d attempt fuel).delays.getD i 0 = d * 2 ^ (attempt + i) := by
  intro fuel
  induction fuel with
  | zero =>
    intro attempt
    rw [retryAux]
    cases fn attempt with
    | ok v => exact ⟨by simp, by simp, by simp⟩
    | error e =>
      by_cases h : isTransient e
      · simp only [h, if_true]
        exact ⟨by simp, by simp, by simp⟩
      · simp only [h, if_false]
        exact ⟨by simp, by simp, by simp⟩
  | succ fuel' ih =>
    intro attempt
    rw [retryAux]
    cases fn attempt with
    | ok v => exact ⟨by simp, by simp, by simp⟩
    | error e =>
      by_cases h : isTransient e
      · simp only [h, if_true]
        obtain ⟨ihlen, ihatt, ihget⟩ := ih (attempt + 1)
        refine ⟨by simpa using Nat.succ_le_succ ihlen, by simpa using ihatt, ?_⟩
        intro i hi
        cases i with
        | zero => simp
        | succ i' =>
          simp only [List.getD_cons_succ]
          have hi' : i' < (retryAux fn d (attempt + 1) fuel').delays.length := by
            simpa using Nat.lt_of_succ_lt_succ (by simpa using hi)
          have hexp : attempt + 1 + i' = attempt + (i' + 1) := by omega
          rw [ihget i' hi', hexp]
      · simp only [h, if_false]
        exact ⟨by simp, by simp, by simp⟩

theorem mul_pow_shift (d a i : Nat) :
    d * 2 ^ (a + 1 + i) = d * 2 ^ (a + (i + 1)) := by
  have h : a + 1 + i = a + (i + 1) := by omega
  rw [h]

theorem range_map_backoff (d a k : Nat) :
    (List.range (k + 1)).map (fun i => d * 2 ^ (a + i))
      = d * 2 ^ a
        :: (List.range k).map (fun i => d * 2 ^ (a + 1 + i)) := by
  rw [List.range_succ_eq_map, List.map_cons, List.map_map]
  refine congrArg₂ _ (by rw [Nat.add_zero]) ?_
  apply List.map_congr_left
  intro i _
  exact (mul_pow_shift d a i).symm

theorem retryAux_permanent {α : Type} (fn : Nat → Except TwilioError α)
    (d : Nat) (es : Nat → TwilioError) (e : TwilioError) : ∀ k attempt fuel,
    k ≤ fuel →
    (∀ j, j < k →
      fn (attempt + j) = .error (es (attempt + j)) ∧
      isTransient (es (attempt + j)) = true) →
    fn (attempt + k) = .error e → isTransient e = false →
    retryAux fn d attempt fuel
      = ⟨.error e, (List.range k).map (fun i => d * 2 ^ (attempt + i)),
          k + 1⟩ := by
  intro k
  induction k with
  | zero =>
    intro attempt fuel _ _ hfk hperm
    rw [Nat.add_zero] at hfk
    rw [retryAux, hfk]
    simp [hperm]
  | succ k' ih =>
    intro attempt fuel hk htrans hfk hperm
    obtain ⟨hf0, ht0⟩ := htrans 0 (Nat.succ_pos k')
    rw [Nat.add_zero] at hf0 ht0
    cases fuel with
    | zero => omega
    | succ fuel' =>
      rw [retryAux, hf0]
      simp only [ht0, if_true]
      have hrest : retryAux fn d (attempt + 1) fuel'
          = ⟨.error e,
              (List.range k').map (fun i => d * 2 ^ (attempt + 1 + i)),
              k' + 1⟩ := by
        apply ih (attempt + 1) fuel' (by omega)
        · intro j hj
          have := htrans (j + 1) (by omega)
          rwa [show attempt + (j + 1) = attempt + 1 + j by omega] at this
        · rwa [show attempt + (k' + 1) = attempt + 1 + k' by omega] at hfk
        · exact hperm
      rw [hrest, range_map_backoff]

theorem retryAux_exhaust {α : Type} (fn : Nat → Except TwilioError α)
    (d : Nat) (es : Nat → TwilioError) : ∀ fuel attempt,
    (∀ j, j ≤ fuel →
      fn (attempt + j) = .error (es (attempt + j)) ∧
      isTransient (es (attempt + j)) = true) →
    retryAux fn d attempt fuel
      = ⟨.error (es (attempt + fuel)),
          (List.range fuel).map (fun i => d * 2 ^ (attempt + i)),
          fuel + 1⟩ := by
  intro fuel
  induction fuel with
  | zero =>
    intro attempt h
    obtain ⟨hf0, ht0⟩ := h 0 (Nat.le_refl 0)
    rw [Nat.add_zero] at hf0 ht0
    rw [retryAux, hf0]
    simp [ht0]
  | succ fuel' ih =>
    intro attempt h
    obtain ⟨hf0, ht0⟩ := h 0 (Nat.zero_le _)
    rw [Nat.add_zero] at hf0 ht0
    rw [retryAux, hf0]
    simp only [ht0, if_true]
    have hrest := ih (attempt + 1) (by
      intro j hj
      have := h (j + 1) (by omega)
      rwa [show attempt + (j + 1) = attempt + 1 + j by omega] at this)
    rw [hrest, range_map_backoff,
      show attempt + 1 + fuel' = attempt + (fuel' + 1) by omega]

/-- **C2.** `retryWithBackoff` classifies failures: if the attempts
`0, …, k-1` fail with retryable (transient) errors and attempt `k`
(`k ≤ maxRetries`) fails with a non-retryable (permanent) error, that
permanent error is rethrown immediately — exactly `k + 1` invocations,
no further retry; if every allowed attempt `0, …, maxRetries` fails with
a transient error, exactly `maxRetries` retries happen and the last
error is rethrown. -/
theorem retryWithBackoff_error_classification {α : Type}
    (fn : Nat → Except TwilioError α) (m d k : Nat)
    (es : Nat → TwilioError) (e : TwilioError) :
    (k ≤ m →
      (∀ j, j < k → fn j = .error (es j) ∧ isTransient (es j) = true) →
      fn k = .error e → isTransient e = false →
      retryWithBackoff fn m d
        = ⟨.error e, (List.range k).map (fun i => d * 2 ^ i), k + 1⟩) ∧
    ((∀ j, j ≤ m → fn j = .error (es j) ∧ isTransient (es j) = true) →
      retryWithBackoff fn m d
        = ⟨.error (es m), (List.range m).map (fun i => d * 2 ^ i),
            m + 1⟩) := by
  constructor
  · intro hk htrans hfk hperm
    have h := retryAux_permanent fn d es e k 0 m hk
      (by intro j hj; simpa using htrans j hj)
      (by simpa using hfk) hperm
    simpa using h
  · intro h
    have hx := retryAux_exhaust fn d es m 0
      (by intro j hj; simpa using h j hj)
    simpa using hx

/-- A permanent Twilio error: HTTP 401, Twilio code 21211 (invalid
recipient) — neither 429, nor 20003, nor 5xx. -/
def permErr : TwilioError := ⟨"bad auth", some 401, some 21211⟩

/-- A transient Twilio error: HTTP 429 rate limit. -/
def rateErr : TwilioError := ⟨"rate limited", some 429, none⟩

/-- An operation that always fails permanently. -/
def fnPerm : Nat → Except TwilioError Unit := fun _ => .error permErr

/-- An operation that always fails with a rate-limit error. -/
def fnRate : Nat → Except TwilioError Unit := fun _ => .error rateErr

theorem retryWithBackoff_error_classification_witness :
    retryWithBackoff fnPerm 3 1000 = ⟨.error permErr, [], 0 + 1⟩ ∧
    retryWithBackoff fnRate 3 1000
      = ⟨.error rateErr, (List.range 3).map (fun i => 1000 * 2 ^ i),
          3 + 1⟩ := by
  constructor
  · exact (retryWithBackoff_error_classification fnPerm 3 1000 0
      (fun _ => permErr) permErr).1 (by decide)
      (fun j hj => absurd hj (Nat.not_lt_zero j)) rfl (by decide)
  · exact (retryWithBackoff_error_classification fnRate 3 1000 3
      (fun _ => rateErr) rateErr).2 (fun j _ => ⟨rfl, by decide⟩)

/-- **C3.** In `retryWithBackoff`, the delay slept after the `k`-th
transient failure is exactly `initialDelayMs * 2 ^ k` milliseconds, at
most `maxRetries` delayed retries occur, and at most `maxRetries + 1`
invocations of the operation are made in total. -/
theorem retryWithBackoff_backoff_schedule {α : Type}
    (fn : Nat → Except TwilioError α) (m d : Nat) :
    (retryWithBackoff fn m d).delays.length ≤ m ∧
    (retryWithBackoff fn m d).attempts
      = (retryWithBackoff fn m d).delays.length + 1 ∧
    (retryWithBackoff fn m d).attempts ≤ m + 1 ∧
    ∀ k, k < (retryWithBackoff fn m d).delays.length →
      (retryWithBackoff fn m d).delays.getD k 0 = d * 2 ^ k := by
  simp only [retryWithBackoff]
  obtain ⟨h1, h2, h3⟩ := retryAux_trace fn d m 0
  exact ⟨h1, h2, by omega, fun k hk => by simpa using h3 k hk⟩

theorem retryWithBackoff_backoff_schedule_witness :
    (retryWithBackoff fnRate 2 1000).delays.getD 0 0 = 1000 * 2 ^ 0 :=
  (retryWithBackoff_backoff_schedule fnRate 2 1000).2.2.2 0 (by decide)

/-! ## Configuration (`tracks.ts` lines 680-700)

`getConfig` reads three environment variables and returns `null` when
any is missing or empty (JavaScript `!s` is true for `undefined` and
`""`).  `getTwilioClient` returns a client exactly when `getConfig`
succeeds; the client itself is opaque here — its calls are passed in as
explicit effect arguments. -/

structure Env where
  twilioAccountSid : Option String := none
  twilioAuthToken : Option String := none
  twilioWhatsappNumber : Option String := none
deriving DecidableEq, Repr

structure TwilioConfig where
  accountSid : String
  authToken : String
  whatsappNumber : String
deriving DecidableEq, Repr

/-- `getConfig` from `tracks.ts`. -/
def getConfig (env : Env) : Option TwilioConfig :=
  match env.twilioAccountSid, env.twilioAuthToken, env.twilioWhatsappNumber with
  | some a, some t, some w =>
    if a.isEmpty || t.isEmpty || w.isEmpty then none else some ⟨a, t, w⟩
  | _, _, _ => none

/-- `getTwilioClient` from `tracks.ts`; the client is opaque, so only
its presence is tracked. -/
def getTwilioClient (env : Env) : Option Unit :=
  (getConfig env).map fun _ => ()

/-! ## Outbound send (`tracks.ts` lines 957-1003)

`sendTextMessageWithRetry` resolves `false` on a missing client, an
invalid recipient or a missing config; otherwise it formats the
`whatsapp:` addresses, runs the send through `retryWithBackoff`, and
converts any rethrown error to `false` in its `catch`.  The transport
(`client.messages.create`) is an explicit argument giving the outcome of
each attempt; the returned pair also counts the transport invocations
actually made, which is `0` on every early return. -/

/-- The resolved value of `client.messages.create`. -/
structure MessageRecord where
  sid : String := ""
  msgStatus : String := ""
deriving DecidableEq, Repr

/-- `s.replace(/^\+/, "")`: drop one leading `+`. -/
def stripLeadingPlus (s : String) : String :=
  if s.data.head? = some '+' then ⟨s.data.tail⟩ else s

/-- `` `whatsapp:${config.whatsappNumber.replace(/^\+/, "")}` `` -/
def formatFromNumber (whatsappNumber : String) : String :=
  "whatsapp:" ++ stripLeadingPlus whatsappNumber

/-- `` `whatsapp:${r.startsWith("+") ? r : `+${r}`}` `` -/
def formatToNumber (recipientNumber : String) : String :=
  "whatsapp:" ++
    (if recipientNumber.data.head? = some '+' then recipientNumber
     else "+" ++ recipientNumber)

/-- `sendTextMessageWithRetry` from `tracks.ts`.  `transport from to
body k` is the outcome of the `k`-th `client.messages.create` attempt.
Result: the promise outcome (always `.ok` — see C5) paired with the
number of transport calls made. -/
def sendTextMessageWithRetry (env : Env)
    (transport : String → String → String → Nat →
      Except TwilioError MessageRecord)
    (recipientNumber messageText : String) :
    Except TwilioError Bool × Nat :=
  match getTwilioClient env with
  | none => (.ok false, 0)
  | some _ =>
    if !validateE164 recipientNumber then (.ok false, 0)
    else
      match getConfig env with
      | none => (.ok false, 0)
      | some config =>
        let run := retryWithBackoff
          (fun k => transport (formatFromNumber config.whatsappNumber)
            (formatToNumber recipientNumber) messageText k) 3 1000
        match run.result with
        | .ok _ => (.ok true, run.attempts)
        | .error _ => (.ok false, run.attempts)

/-! ## Media download (`tracks.ts` lines 1181-1308)

`downloadVoiceNoteMedia` parses the webhook media URL with
`/\/Media\/([^\/\?]+)/` and `/\/Messages\/([^\/]+)\//`; on a parse miss
or any metadata-fetch error it falls back to the original URL with
default mime type, empty sha256 and size 0.  `downloadMediaFile`
downloads the URL with basic auth and converts any error to `null`. -/

/-- Bytes of a downloaded file (a Node `Buffer`). -/
abbrev Buffer := List Nat

/-- The Twilio media metadata resource; `contentType` and
`contentLength` may be null. -/
structure MediaResource where
  contentType : Option String := none
  contentLength : Option String := none
deriving DecidableEq, Repr

/-- Result record of `downloadVoiceNoteMedia`.  `fileSize = none`
models a JavaScript `NaN` from `parseInt`. -/
structure MediaInfo where
  url : String
  mimeType : String
  sha256 : String
  fileSize : Option Int
deriving DecidableEq, Repr

/-- JavaScript `a || b` on an optional string: `undefined` and `""` are
falsy. -/
def jsOrStr (a : Option String) (b : String) : String :=
  match a with
  | some s => if s.isEmpty then b else s
  | none => b

/-- Leading-digit parse for `parseInt(s, 10)`. -/
def parseDigits (l : List Char) : Option Nat :=
  let ds := l.takeWhile Char.isDigit
  if ds.isEmpty then none
  else some (ds.foldl (fun acc c => acc * 10 + (c.toNat - '0'.toNat)) 0)

/-- `parseInt(s, 10)`: skip leading whitespace, optional sign, then
leading digits; `none` models `NaN`. -/
def jsParseInt (s : String) : Option Int :=
  match s.data.dropWhile (fun c =>
      c = ' ' || c = '\t' || c = '\n' || c = '\r') with
  | '-' :: rest => (parseDigits rest).map fun n => -(n : Int)
  | '+' :: rest => (parseDigits rest).map fun n => (n : Int)
  | t => (parseDigits t).map fun n => (n : Int)

/-- `mediaUrl.match(/\/Media\/([^\/\?]+)/)`: scan positions left to
right; at each, require the literal `/Media/` followed by a nonempty run
of characters other than `/` and `?`; return the first capture. -/
def findMediaSid : List Char → Option (List Char)
  | [] => none
  | c :: rest =>
    if (c :: rest).take 7 = "/Media/".data then
      let cap := ((c :: rest).drop 7).takeWhile fun ch =>
        !(ch == '/' || ch == '?')
      if cap.isEmpty then findMediaSid rest else some cap
    else findMediaSid rest

/-- `mediaUrl.match(/\/Messages\/([^\/]+)\//)`: like `findMediaSid`, but
the nonempty non-`/` run must be followed by a `/`. -/
def findMessageSid : List Char → Option (List Char)
  | [] => none
  | c :: rest =>
    if (c :: rest).take 10 = "/Messages/".data then
      let after := (c :: rest).drop 10
      let cap := after.takeWhile fun ch => ch != '/'
      if cap.isEmpty then findMessageSid rest
      else if (after.drop cap.length).head? = some '/' then some cap
      else findMessageSid rest
    else findMessageSid rest

/-- The fallback record of `downloadVoiceNoteMedia`: the original URL,
default mime type `audio/ogg`, empty sha256, size 0. -/
def defaultMediaInfo (mediaUrl : String) : MediaInfo :=
  ⟨mediaUrl, "audio/ogg", "", some 0⟩

/-- `downloadVoiceNoteMedia` from `tracks.ts` (lines 1181-1260; the
earlier copy at lines 548-607 differs only in the returned `url` on a
successful fetch).  `fetchMedia messageSid mediaSid` is the outcome of
`client.messages(messageSid).media(mediaSid).fetch()`.  Nothing else in
the body can throw, so the outer `catch` (which also falls back to
`defaultMediaInfo`) is unreachable in this model. -/
def downloadVoiceNoteMedia (env : Env)
    (fetchMedia : String → String → Except TwilioError MediaResource)
    (mediaUrl : String) : Option MediaInfo :=
  match getConfig env with
  | none => none
  | some _ =>
    match getTwilioClient env with
    | none => none
    | some _ =>
      match findMediaSid mediaUrl.data, findMessageSid mediaUrl.data with
      | some mediaSid, some messageSid =>
        match fetchMedia ⟨messageSid⟩ ⟨mediaSid⟩ with
        | .ok media =>
          some ⟨mediaUrl, jsOrStr media.contentType "audio/ogg", "",
            jsParseInt (jsOrStr media.contentLength "0")⟩
        | .error _ => some (defaultMediaInfo mediaUrl)
      | _, _ => some (defaultMediaInfo mediaUrl)

/-- `downloadMediaFile` from `tracks.ts` (lines 1262-1308).  `httpGet`
is the outcome of the authenticated `axios.get`; the `catch` converts
its rejection to `null`. -/
def downloadMediaFile (env : Env)
    (httpGet : Except TwilioError Buffer) (mediaUrl : String) :
    Except TwilioError (Option Buffer) :=
  match env.twilioAccountSid, env.twilioAuthToken with
  | some a, some t =>
    if a.isEmpty || t.isEmpty then .ok none
    else
      match httpGet with
      | .ok data => .ok (some data)
      | .error _ => .ok none
  | _, _ => .ok none

/-! ## Concrete fixtures used by witnesses and counterexamples -/

/-- A fully configured environment. -/
def envConfigured : Env := ⟨some "AC1", some "tok", some "+14155238886"⟩

/-- A transport whose sends always succeed. -/
def okTransport : String → String → String → Nat →
    Except TwilioError MessageRecord :=
  fun _ _ _ _ => .ok ⟨"SM1", "queued"⟩

/-- A transport whose sends always reject with a permanent error. -/
def failTransport : String → String → String → Nat →
    Except TwilioError MessageRecord :=
  fun _ _ _ _ => .error permErr

/-- A Twilio-shaped media URL. -/
def urlEx : String := "https://x/Messages/MM1/Media/ME1"

/-- A metadata fetch that succeeds with content type and length. -/
def fetchEx : String → String → Except TwilioError MediaResource :=
  fun _ _ => .ok ⟨some "audio/ogg", some "17"⟩

/-- A metadata fetch that always rejects. -/
def failFetch : String → String → Except TwilioError MediaResource :=
  fun _ _ => .error permErr

theorem retryAux_result_error {α : Type} (fn : Nat → Except TwilioError α)
    (d : Nat) (h : ∀ k, ∃ e, fn k = .error e) : ∀ fuel attempt,
    ∃ e', (retryAux fn d attempt fuel).result = .error e' := by
  intro fuel
  induction fuel with
  | zero =>
    intro attempt
    obtain ⟨e, he⟩ := h attempt
    rw [retryAux, he]
    by_cases ht : isTransient e
    · simp [ht]
    · simp [ht]
  | succ fuel' ih =>
    intro attempt
    obtain ⟨e, he⟩ := h attempt
    rw [retryAux, he]
    by_cases ht : isTransient e
    · simpa [ht] using ih (attempt + 1)
    · simp [ht]

/-- **C5.** The gateway functions never propagate an exception:
`sendTextMessageWithRetry` always resolves to a boolean (and resolves
`false` when the transport always rejects), and `downloadMediaFile`
always resolves to a buffer or `null` (and resolves `null` when the
HTTP request rejects). -/
theorem gateway_no_raw_exceptions (env : Env)
    (transport : String → String → String → Nat →
      Except TwilioError MessageRecord)
    (recipientNumber messageText : String)
    (httpGet : Except TwilioError Buffer) (url : String) (e : TwilioError) :
    (∃ b : Bool,
      (sendTextMessageWithRetry env transport recipientNumber
        messageText).1 = .ok b) ∧
    ((∀ frm dst body k, transport frm dst body k = .error e) →
      (sendTextMessageWithRetry env transport recipientNumber
        messageText).1 = .ok false) ∧
    (∃ ob : Option Buffer, downloadMediaFile env httpGet url = .ok ob) ∧
    downloadMediaFile env (.error e) url = .ok none := by
  refine ⟨?_, ?_, ?_, ?_⟩
  · unfold sendTextMessageWithRetry
    cases getTwilioClient env with
    | none => exact ⟨false, rfl⟩
    | some _ =>
      simp only
      split
      · exact ⟨false, rfl⟩
      · cases getConfig env with
        | none => exact ⟨false, rfl⟩
        | some config =>
          simp only
          split
          · exact ⟨true, rfl⟩
          · exact ⟨false, rfl⟩
  · intro hfail
    unfold sendTextMessageWithRetry
    cases getTwilioClient env with
    | none => rfl
    | some _ =>
      simp only
      split
      · rfl
      · cases getConfig env with
        | none => rfl
        | some config =>
          simp only
          obtain ⟨e', he'⟩ := retryAux_result_error
            (fun k => transport (formatFromNumber config.whatsappNumber)
              (formatToNumber recipientNumber) messageText k) 1000
            (fun k => ⟨e, hfail _ _ _ k⟩) 3 0
          rw [retryWithBackoff] at *
          rw [he']
  · unfold downloadMediaFile
    cases env.twilioAccountSid with
    | none => exact ⟨none, rfl⟩
    | some a =>
      cases env.twilioAuthToken with
      | none => exact ⟨none, rfl⟩
      | some t =>
        simp only
        split
        · exact ⟨none, rfl⟩
        · cases httpGet with
          | ok data => exact ⟨some data, rfl⟩
          | error _ => exact ⟨none, rfl⟩
  · unfold downloadMediaFile
    cases env.twilioAccountSid with
    | none => rfl
    | some a =>
      cases env.twilioAuthToken with
      | none => rfl
      | some t =>
        simp only
        split
        · rfl
        · rfl

theorem gateway_no_raw_exceptions_witness :
    (sendTextMessageWithRetry envConfigured failTransport "919876543210"
      "hello").1 = .ok false :=
  (gateway_no_raw_exceptions envConfigured failTransport "919876543210"
    "hello" (.error permErr) "https://x" permErr).2.1
    (fun _ _ _ _ => rfl)

/-- **C7.** A recipient failing `validateE164` (not 10-15 ASCII digits;
in particular any string containing a non-digit such as `+`) makes
`sendTextMessageWithRetry` return `false` with zero transport calls: a
malformed recipient is a no-op, never sent and never retried. -/
theorem sendTextMessageWithRetry_malformed_recipient (env : Env)
    (transport : String → String → String → Nat →
      Except TwilioError MessageRecord)
    (recipientNumber messageText : String) :
    (recipientNumber.data.any (fun c => !c.isDigit) = true →
      validateE164 recipientNumber = false) ∧
    (validateE164 recipientNumber = false →
      sendTextMessageWithRetry env transport recipientNumber messageText
        = (.ok false, 0)) := by
  constructor
  · intro hany
    obtain ⟨c, hc, hnc⟩ := List.any_eq_true.mp hany
    have hall : recipientNumber.data.all Char.isDigit = false := by
      cases hall : recipientNumber.data.all Char.isDigit with
      | false => rfl
      | true =>
        have := List.all_eq_true.mp hall c hc
        simp [this] at hnc
    simp [validateE164, hall]
  · intro hinv
    unfold sendTextMessageWithRetry
    cases getTwilioClient env with
    | none => rfl
    | some _ => simp [hinv]

theorem sendTextMessageWithRetry_malformed_recipient_witness :
    sendTextMessageWithRetry envConfigured okTransport "+919876543210"
      "hello" = (.ok false, 0) :=
  (sendTextMessageWithRetry_malformed_recipient envConfigured okTransport
    "+919876543210" "hello").2 (by decide)

/-- **C10.** With Twilio credentials configured,
`downloadVoiceNoteMedia` never returns `null` and never signals
failure: an unrecognized URL format falls back to the original URL with
mime `audio/ogg`, empty sha256 and size 0; so does any metadata-fetch
error; and the outcome of an always-failing fetch is literally equal to
that of a fetch succeeding with null content type and length. -/
theorem downloadVoiceNoteMedia_never_fails (env : Env)
    (fetchMedia : String → String → Except TwilioError MediaResource)
    (url : String) (e : TwilioError) :
    (getConfig env).isSome = true →
    (∃ r, downloadVoiceNoteMedia env fetchMedia url = some r) ∧
    ((findMediaSid url.data = none ∨ findMessageSid url.data = none) →
      downloadVoiceNoteMedia env fetchMedia url
        = some (defaultMediaInfo url)) ∧
    (∀ mediaSid messageSid, findMediaSid url.data = some mediaSid →
      findMessageSid url.data = some messageSid →
      fetchMedia ⟨messageSid⟩ ⟨mediaSid⟩ = .error e →
      downloadVoiceNoteMedia env fetchMedia url
        = some (defaultMediaInfo url)) ∧
    downloadVoiceNoteMedia env (fun _ _ => .error e) url
      = downloadVoiceNoteMedia env (fun _ _ => .ok ⟨none, none⟩) url := by
  intro hcfg
  obtain ⟨config, hc⟩ := Option.isSome_iff_exists.mp hcfg
  have hcl : getTwilioClient env = some () := by
    rw [getTwilioClient, hc]; rfl
  refine ⟨?_, ?_, ?_, ?_⟩
  · unfold downloadVoiceNoteMedia
    rw [hc, hcl]
    cases hms : findMediaSid url.data with
    | none => exact ⟨defaultMediaInfo url, rfl⟩
    | some mediaSid =>
      cases hmsg : findMessageSid url.data with
      | none => exact ⟨defaultMediaInfo url, rfl⟩
      | some messageSid =>
        simp only
        cases fetchMedia ⟨messageSid⟩ ⟨mediaSid⟩ with
        | ok media => exact ⟨_, rfl⟩
        | error _ => exact ⟨defaultMediaInfo url, rfl⟩
  · intro hmiss
    unfold downloadVoiceNoteMedia
    rw [hc, hcl]
    rcases hmiss with hmiss | hmiss
    · rw [hmiss]
    · rw [hmiss]
      cases findMediaSid url.data <;> rfl
  · intro mediaSid messageSid hms hmsg hfe
    unfold downloadVoiceNoteMedia
    rw [hc, hcl, hms, hmsg]
    simp only
    rw [hfe]
  · unfold downloadVoiceNoteMedia
    rw [hc, hcl]
    cases findMediaSid url.data with
    | none => rfl
    | some mediaSid =>
      cases findMessageSid url.data with
      | none => rfl
      | some messageSid => rfl

theorem downloadVoiceNoteMedia_never_fails_witness :
    downloadVoiceNoteMedia envConfigured failFetch "https://x"
      = some (defaultMediaInfo "https://x") :=
  (downloadVoiceNoteMedia_never_fails envConfigured failFetch "https://x"
    permErr (by decide)).2.1 (Or.inl (by decide))

/-- Modelled from the spec: the content hash it prescribes is SHA-256
(schema column `media_sha256 varchar(64)`); a SHA-256 digest rendered as
hex is exactly 64 hexadecimal characters.  Only this rendering shape is
needed, not the hash itself, which the repository never computes. -/
def isSha256Hex (s : String) : Bool :=
  s.data.length == 64 &&
    s.data.all fun c =>
      c.isDigit || ('a' ≤ c && c ≤ 'f') || ('A' ≤ c && c ≤ 'F')

/-- **C4 is false on the code**: on a successfully processed Twilio
media URL, `downloadVoiceNoteMedia` returns `sha256 = ""`, which is not
a SHA-256 hex digest of any bytes, so it is not the content hash of the
downloaded media. -/
theorem downloadVoiceNoteMedia_sha256_counterexample :
    downloadVoiceNoteMedia envConfigured fetchEx urlEx
      = some ⟨urlEx, "audio/ogg", "", some 17⟩ ∧
    isSha256Hex "" = false := by
  constructor
  · decide
  · decide

/-- **C4 amended.** The `sha256` field of every result of
`downloadVoiceNoteMedia` is the empty string: the implementation never
computes a content hash (Twilio does not supply one). -/
theorem downloadVoiceNoteMedia_sha256_empty (env : Env)
    (fetchMedia : String → String → Except TwilioError MediaResource)
    (url : String) (r : MediaInfo)
    (h : downloadVoiceNoteMedia env fetchMedia url = some r) :
    r.sha256 = "" := by
  unfold downloadVoiceNoteMedia at h
  cases hc : getConfig env with
  | none => rw [hc] at h; exact absurd h (by simp)
  | some config =>
    rw [hc] at h
    cases hcl : getTwilioClient env with
    | none => rw [hcl] at h; exact absurd h (by simp)
    | some u =>
      rw [hcl] at h
      cases hms : findMediaSid url.data with
      | none =>
        rw [hms] at h
        cases findMessageSid url.data <;>
          · simp only at h
            injection h with h'
            rw [← h']
            rfl
      | some mediaSid =>
        rw [hms] at h
        cases hmsg : findMessageSid url.data with
        | none =>
          rw [hmsg] at h
          injection h with h'
          rw [← h']
          rfl
        | some messageSid =>
          rw [hmsg] at h
          simp only at h
          cases hfe : fetchMedia ⟨messageSid⟩ ⟨mediaSid⟩ with
          | ok media =>
            rw [hfe] at h
            injection h with h'
            rw [← h']
          | error _ =>
            rw [hfe] at h
            injection h with h'
            rw [← h']
            rfl

theorem downloadVoiceNoteMedia_sha256_empty_witness :
    MediaInfo.sha256 ⟨urlEx, "audio/ogg", "", some 17⟩ = "" :=
  downloadVoiceNoteMedia_sha256_empty envConfigured fetchEx urlEx
    ⟨urlEx, "audio/ogg", "", some 17⟩ (by decide)

/-! ## Persisted schema (migration `part_000`)

The two tables, with each column's DDL default.  Timestamps are opaque
integers; a nullable column is an `Option`.  `insertFreeTrial` /
`insertVoiceNoteRow` model an INSERT that supplies only the
non-defaulted NOT NULL columns, every other column taking its default
(`now` stands for the database's `now()`). -/

structure FreeTrialRow where
  id : String
  customerPhone : String
  buyerName : String
  storytellerName : String
  selectedAlbum : String
  storytellerPhone : Option String := none
  conversationState : String := "awaiting_initial_contact"
  currentQuestionIndex : Int := 0
  retryReadinessAt : Option Int := none
  retryCount : Int := 0
  lastReadinessResponse : Option String := none
  welcomeSentAt : Option Int := none
  readinessAskedAt : Option Int := none
  lastQuestionSentAt : Option Int := none
  reminderSentAt : Option Int := none
  nextQuestionScheduledFor : Option Int := none
  createdAt : Int := 0
deriving DecidableEq, Repr

structure VoiceNoteRow where
  id : String
  freeTrialId : String
  questionIndex : Int
  questionText : String
  mediaId : String
  mediaUrl : Option String := none
  localFilePath : Option String := none
  mimeType : Option String := none
  mediaSha256 : Option String := none
  downloadStatus : String := "pending"
  sizeBytes : Option Int := none
  receivedAt : Int := 0
deriving DecidableEq, Repr

def insertFreeTrial (id customerPhone buyerName storytellerName
    selectedAlbum : String) (now : Int) : FreeTrialRow :=
  { id, customerPhone, buyerName, storytellerName, selectedAlbum,
    createdAt := now }

def insertVoiceNoteRow (id freeTrialId : String) (questionIndex : Int)
    (questionText mediaId : String) (now : Int) : VoiceNoteRow :=
  { id, freeTrialId, questionIndex, questionText, mediaId,
    receivedAt := now }

/-- **C8.** Every newly created row starts in the declared initial
state: a `free_trials` row defaults to conversation state
`awaiting_initial_contact` with question index 0 and retry count 0, and
a `voice_notes` row defaults to download status `pending`. -/
theorem new_rows_start_in_initial_state (i p b st al vid tid qt mid : String)
    (qi : Int) (now : Int) :
    (insertFreeTrial i p b st al now).conversationState
      = "awaiting_initial_contact" ∧
    (insertFreeTrial i p b st al now).currentQuestionIndex = 0 ∧
    (insertFreeTrial i p b st al now).retryCount = 0 ∧
    (insertVoiceNoteRow vid tid qi qt mid now).downloadStatus = "pending" :=
  ⟨rfl, rfl, rfl, rfl⟩

/-! ## The unique index `voice_notes_trial_question_idx`

`CREATE UNIQUE INDEX … ON voice_notes (free_trial_id, question_index)`:
an INSERT that collides on the pair (or on the primary key `id`) is
rejected by the database instead of overwriting the stored row. -/

/-- Two rows collide on the unique index. -/
def conflictsTQ (a b : VoiceNoteRow) : Bool :=
  a.freeTrialId == b.freeTrialId && a.questionIndex == b.questionIndex

/-- INSERT into `voice_notes` under the table's constraints: `none` is
the database rejecting the statement. -/
def insertVoiceNote (db : List VoiceNoteRow) (r : VoiceNoteRow) :
    Option (List VoiceNoteRow) :=
  if db.any (fun x => x.id == r.id) then none
  else if db.any (fun x => conflictsTQ x r) then none
  else some (db ++ [r])

/-- The invariant the unique index maintains: no two stored rows share
`(free_trial_id, question_index)`. -/
def uniqueTrialQuestion : List VoiceNoteRow → Bool
  | [] => true
  | x :: rest => !rest.any (fun y => conflictsTQ x y) && uniqueTrialQuestion rest

/-- Number of stored rows occupying a `(free_trial_id, question_index)`
slot. -/
def countSlot (db : List VoiceNoteRow) (tid : String) (qi : Int) : Nat :=
  (db.filter fun x => x.freeTrialId == tid && x.questionIndex == qi).length

theorem uniqueTrialQuestion_append (db : List VoiceNoteRow)
    (r : VoiceNoteRow) (hu : uniqueTrialQuestion db = true)
    (hno : db.any (fun x => conflictsTQ x r) = false) :
    uniqueTrialQuestion (db ++ [r]) = true := by
  induction db with
  | nil => simp [uniqueTrialQuestion]
  | cons x rest ih =>
    rw [List.cons_append, uniqueTrialQuestion]
    rw [uniqueTrialQuestion] at hu
    rw [List.any_cons] at hno
    obtain ⟨hx, hrest⟩ := Bool.or_eq_false_iff.mp hno
    obtain ⟨hxno, hurest⟩ := Bool.and_eq_true_iff.mp hu
    rw [ih hurest hrest, Bool.and_true, List.any_append, List.any_cons]
    simp only [List.any_nil, Bool.or_false]
    rw [Bool.not_eq_true'] at hxno
    rw [hxno, hx]
    rfl

theorem countSlot_append_self (db : List VoiceNoteRow) (r : VoiceNoteRow) :
    countSlot (db ++ [r]) r.freeTrialId r.questionIndex
      = countSlot db r.freeTrialId r.questionIndex + 1 := by
  unfold countSlot
  rw [List.filter_append]
  simp

theorem countSlot_eq_zero (db : List VoiceNoteRow) (r : VoiceNoteRow)
    (hno : db.any (fun x => conflictsTQ x r) = false) :
    countSlot db r.freeTrialId r.questionIndex = 0 := by
  unfold countSlot
  rw [List.length_eq_zero, List.filter_eq_nil_iff]
  intro x hx
  intro hcontra
  have : (db.any fun x => conflictsTQ x r) = true :=
    List.any_eq_true.mpr ⟨x, hx, hcontra⟩
  rw [hno] at this
  exact Bool.false_ne_true this

/-- **C1.** The `voice_notes` store admits at most one row per
`(free_trial_id, question_index)` pair: a successful insert keeps the
uniqueness invariant and fills the slot with exactly one row, and any
further insert into the already-filled slot — in particular replaying
the same inbound voice-note event — is rejected, never overwriting, so
exactly one stored row remains for that slot. -/
theorem voice_note_slot_unique (db db' : List VoiceNoteRow)
    (r r2 : VoiceNoteRow) (hu : uniqueTrialQuestion db = true)
    (hins : insertVoiceNote db r = some db')
    (ht : r2.freeTrialId = r.freeTrialId)
    (hq : r2.questionIndex = r.questionIndex) :
    uniqueTrialQuestion db' = true ∧
    countSlot db' r.freeTrialId r.questionIndex = 1 ∧
    insertVoiceNote db' r2 = none := by
  unfold insertVoiceNote at hins
  by_cases hid : db.any (fun x => x.id == r.id) = true
  · rw [if_pos hid] at hins; exact absurd hins (by simp)
  · rw [Bool.not_eq_true] at hid
    rw [if_neg (by simp [hid])] at hins
    by_cases hpair : db.any (fun x => conflictsTQ x r) = true
    · rw [if_pos hpair] at hins; exact absurd hins (by simp)
    · rw [Bool.not_eq_true] at hpair
      rw [if_neg (by simp [hpair])] at hins
      injection hins with hdb'
      subst hdb'
      refine ⟨uniqueTrialQuestion_append db r hu hpair, ?_, ?_⟩
      · rw [countSlot_append_self, countSlot_eq_zero db r hpair]
      · unfold insertVoiceNote
        by_cases hid2 : (db ++ [r]).any (fun x => x.id == r2.id) = true
        · rw [if_pos hid2]
        · rw [Bool.not_eq_true] at hid2
          have hconf : ((db ++ [r]).any fun x => conflictsTQ x r2) = true :=
            List.any_eq_true.mpr
              ⟨r, by simp, by simp [conflictsTQ, ht, hq]⟩
          rw [if_neg (by simp [hid2]), if_pos hconf]

/-- The first inbound voice note for trial `ft1`, question 0. -/
def vnEx : VoiceNoteRow :=
  { id := "vn1", freeTrialId := "ft1", questionIndex := 0,
    questionText := "Q0", mediaId := "ME1" }

theorem voice_note_slot_unique_witness :
    uniqueTrialQuestion [vnEx] = true ∧
    countSlot [vnEx] vnEx.freeTrialId vnEx.questionIndex = 1 ∧
    insertVoiceNote [vnEx] vnEx = none :=
  voice_note_slot_unique [] [vnEx] vnEx vnEx (by decide) (by decide)
    rfl rfl

end Kahani
